import Mathlib

/-!
# Shallow embedding of the fitness-tracker Flask application (src/app.py)

Modelling conventions:

* MongoDB ObjectIds are `Nat`; each stored document carries its `_id` in the
  field `id`.  A collection is a `List` of documents in natural (insertion)
  order: `find_one` is `List.find?`, `insert_one` appends, `update_one doc
  {$set: e}` replaces the first list element equal to the document previously
  found, `delete_one doc` removes it, and `delete_many {routine_id: r}`
  filters the collection.  The `_id` MongoDB generates for an inserted
  document is passed to the handler as an explicit `fresh_id` argument.
* Python `datetime` values are `Nat` seconds since the epoch.  A string in
  the format dd/mm/yy parses via `datetime.strptime` to midnight of its day,
  i.e. `day * secondsPerDay` for a day number `day`; appending "23:59:59"
  before parsing yields `day * secondsPerDay + lastSecondOfDay`.  A form or
  query field holding the outcome of such a parse is an `Option`: `some` a
  parsed value, `none` the `ValueError` raised on a malformed string.
* Flask responses are `HResult`; `HResult.pyNone` is the implicit Python
  `None` returned when a view function falls through without a return
  statement.  An uncaught Python exception is `Except.error`.  Every handler
  returns the final database state together with its outcome, so an
  exception also reports the database it left behind.
* `session["user"]` is an `Option String` passed to each handler.  Of the
  handlers embedded here only `register` writes to it, so `register` returns
  the new session value and the other handlers return just the database and
  the response.  The `login_required` decorator is inlined at the top of
  each decorated handler as a `match` on the session user.
* Password hashing is delegated to werkzeug in the source; the stand-in
  `generate_password_hash` below is only ever stored and compared whole.
-/

namespace FitnessApp

/-- Equality of `Except` values is decidable when it is on both sides. -/
instance {ε α : Type} [DecidableEq ε] [DecidableEq α] : DecidableEq (Except ε α) :=
  fun x y =>
    match x, y with
    | .ok a, .ok b =>
      if h : a = b then .isTrue (congrArg Except.ok h)
      else .isFalse (fun hc => h (Except.ok.inj hc))
    | .error a, .error b =>
      if h : a = b then .isTrue (congrArg Except.error h)
      else .isFalse (fun hc => h (Except.error.inj hc))
    | .ok _, .error _ => .isFalse (fun hc => Except.noConfusion hc)
    | .error _, .ok _ => .isFalse (fun hc => Except.noConfusion hc)

/-- A document of the `users` collection. -/
structure User where
  username : String
  email : String
  password : String
deriving Repr, DecidableEq

/-- A document of the `routines` collection. -/
structure Routine where
  id : Nat
  routine_name : String
  exercise_one : String
  exercise_one_reps : Int
  exercise_two : String
  exercise_two_reps : Int
  exercise_three : String
  exercise_three_reps : Int
  username : String
deriving Repr, DecidableEq

/-- A document of the `workout_logs` collection. -/
structure WorkoutLog where
  id : Nat
  routine_id : Nat
  date : Nat
  notes : String
  sets : Int
  username : String
deriving Repr, DecidableEq

/-- The three collections of the Mongo database. -/
structure DB where
  users : List User
  routines : List Routine
  workout_logs : List WorkoutLog
deriving Repr, DecidableEq

/-- Mongo `update_one found {$set: e}`: replace the first element equal to the
document previously returned by `find_one`. -/
def updateFirst {α : Type} [DecidableEq α] : List α → α → α → List α
  | [], _, _ => []
  | x :: xs, target, new =>
    if x = target then new :: xs else x :: updateFirst xs target new

/-- Mongo `delete_one found`: remove the first element equal to the document
previously returned by `find_one`. -/
def deleteFirst {α : Type} [DecidableEq α] : List α → α → List α
  | [], _ => []
  | x :: xs, target => if x = target then xs else x :: deleteFirst xs target

/-- Seconds in a day. -/
def secondsPerDay : Nat := 86400

/-- 23:59:59 as seconds after midnight. -/
def lastSecondOfDay : Nat := 86399

/-- A workout log together with the `routine` array produced by the
`$lookup` stage joining `routines` on `routine_id = _id`. -/
structure LogWithRoutine where
  log : WorkoutLog
  routine : List Routine
deriving Repr, DecidableEq

/-- The `$lookup` stage of the `workout_log` aggregation pipeline. -/
def lookupRoutine (db : DB) (l : WorkoutLog) : LogWithRoutine :=
  { log := l, routine := db.routines.filter (fun r => r.id == l.routine_id) }

/-- Data passed by a handler to `render_template`. -/
inductive PageData where
  | empty
  | logs (logs : List LogWithRoutine)
  | addWorkout (routines : List Routine) (routine_name : Option String)
  | editWorkout (log : Option WorkoutLog) (routines : List Routine)
  | myRoutines (default_routines : List Routine) (custom_routines : List Routine)
  | editRoutine (routine : Option Routine)
  | progress (labels : List Nat) (values : List Int) (best : WorkoutLog)
      (routine : Option Routine)
deriving Repr, DecidableEq

/-- The value returned by a Flask view function. -/
inductive HResult where
  | page (template : String) (data : PageData) (flashes : List String)
  | redirect (endpoint : String) (flashes : List String)
  | pyNone
deriving Repr, DecidableEq

/-- An uncaught Python exception. -/
inductive PyError where
  | typeError (msg : String)
  | valueError (msg : String)
deriving Repr, DecidableEq

/-- The HTTP method of a request. -/
inductive Method where
  | get
  | post
deriving Repr, DecidableEq

def mustLoginMsg : String := "You must login to access this page."

def invalidDateMsg : String :=
  "Invalid date. Please enter valid dates in the format dd/mm/yy."

def invalidDateTimeMsg : String :=
  "Invalid date/time. Please enter a valid date and time in the formats dd/mm/yy and hh:mm."

def permissionEditLogMsg : String :=
  "You don\x27t have permission to edit this log."

def permissionDeleteLogMsg : String :=
  "You don\x27t have permission to delete this log."

def permissionEditRoutineMsg : String :=
  "You don\x27t have permission to edit this routine."

def duplicateRoutineMsg : String :=
  "Duplicate routine name. Please enter a unique routine name."

/-- Message of the `TypeError` raised by subscripting the `None` returned by
a failed `find_one`. -/
def noneSubscriptMsg : String := "NoneType object is not subscriptable"

/-- Message of the `ValueError` raised by `datetime.strptime` on a string
that does not match the format. -/
def strptimeErrorMsg : String := "time data does not match format"

/-- Stand-in for werkzeug's `generate_password_hash`. -/
def generate_password_hash (password : String) : String :=
  "pbkdf2:sha256$" ++ password

/-- Python's `str.lower()`, character by character (usernames are ASCII). -/
def pyLower (s : String) : String := ⟨s.data.map Char.toLower⟩

/-- The fields of the registration form. -/
structure RegisterForm where
  username : String
  email : String
  password : String
deriving Repr, DecidableEq

/-- Handler `register` (src/app.py lines 100-144).  Returns the final database, the
final session user and the response. -/
def register (sessionUser : Option String) (method : Method) (form : RegisterForm)
    (db : DB) : DB × Option String × HResult :=
  match sessionUser with
  | some u => (db, some u, .redirect "workout_log" [])
  | none =>
    match method with
    | .get => (db, none, .page "register.html" .empty [])
    | .post =>
      let username := pyLower form.username
      match db.users.find? (fun u => u.username == username) with
      | some _ =>
        (db, none, .redirect "register"
          ["Username \x22" ++ username ++ "\x22 is unavailable."])
      | none =>
        let new_user : User :=
          { username := username, email := form.email,
            password := generate_password_hash form.password }
        ({ db with users := db.users ++ [new_user] }, some username,
          .redirect "workout_log"
            ["Welcome, " ++ username ++ "! Your account has been created."])

/-- Handler `workout_log` (src/app.py lines 158-235).  `filter_args = some (pf, pt)`
models a request whose `date_from` query parameter is present (truthy): `pf`
is the outcome of `strptime(date_from, "%d/%m/%y")` as a day number and `pt`
the outcome of `strptime(date_to + "23:59:59", "%d/%m/%y%H:%M:%S")` as a day
number, `none` meaning the `ValueError` raised on a malformed string. -/
def workout_log (sessionUser : Option String)
    (filter_args : Option (Option Nat × Option Nat)) (db : DB) :
    DB × Except PyError HResult :=
  match sessionUser with
  | none => (db, .ok (.redirect "login" [mustLoginMsg]))
  | some user =>
    match filter_args with
    | some (parsed_from, parsed_to) =>
      match parsed_from, parsed_to with
      | some from_day, some to_day =>
        let date_from := from_day * secondsPerDay
        let date_to := to_day * secondsPerDay + lastSecondOfDay
        let matched := db.workout_logs.filter
          (fun l => l.username == user && decide (date_from ≤ l.date) &&
            decide (l.date < date_to))
        let logs := List.insertionSort (fun a b => b.log.date ≤ a.log.date)
          (matched.map (lookupRoutine db))
        (db, .ok (.page "workout_log.html" (.logs logs) []))
      | _, _ =>
        (db, .ok (.redirect "workout_log" [invalidDateMsg]))
    | none =>
      let matched := db.workout_logs.filter (fun l => l.username == user)
      let logs := List.insertionSort (fun a b => b.log.date ≤ a.log.date)
        (matched.map (lookupRoutine db))
      (db, .ok (.page "workout_log.html" (.logs logs) []))

/-- The fields of the add/edit workout form.  `routine_name` holds the value
of `ObjectId(request.form.get("routine_name"))`; `workout_datetime` the
outcome of `strptime(workout_date + workout_time, "%d/%m/%y%H:%M")`, `none`
meaning the `ValueError` raised on a malformed string. -/
structure WorkoutForm where
  routine_name : Nat
  workout_datetime : Option Nat
  notes : String
  sets : Int
deriving Repr, DecidableEq

/-- Handler `add_workout` (src/app.py lines 238-288). -/
def add_workout (sessionUser : Option String) (method : Method) (form : WorkoutForm)
    (routine_name_arg : Option String) (fresh_id : Nat) (db : DB) :
    DB × Except PyError HResult :=
  match sessionUser with
  | none => (db, .ok (.redirect "login" [mustLoginMsg]))
  | some user =>
    match method with
    | .post =>
      match form.workout_datetime with
      | none => (db, .ok (.redirect "add_workout" [invalidDateTimeMsg]))
      | some iso_date =>
        let entry : WorkoutLog :=
          { id := fresh_id, routine_id := form.routine_name, date := iso_date,
            notes := form.notes, sets := form.sets, username := user }
        ({ db with workout_logs := db.workout_logs ++ [entry] },
          .ok (.redirect "workout_log" ["Workout record added!"]))
    | .get =>
      let default_routines := db.routines.filter (fun r => r.username == "admin")
      let user_routines := db.routines.filter (fun r => r.username == user)
      (db, .ok (.page "add_workout.html"
        (.addWorkout (default_routines ++ user_routines) routine_name_arg) []))

/-- Handler `edit_workout` (src/app.py lines 291-341).  On POST the log is fetched by
id; subscripting a missing log raises `TypeError`.  The `strptime` call at
line 309 is not wrapped in try/except, so a malformed date by the owner
raises `ValueError`.  The `$set` update keeps the document's `_id`. -/
def edit_workout (sessionUser : Option String) (method : Method) (log_id : Nat)
    (form : WorkoutForm) (db : DB) : DB × Except PyError HResult :=
  match sessionUser with
  | none => (db, .ok (.redirect "login" [mustLoginMsg]))
  | some user =>
    match method with
    | .post =>
      match db.workout_logs.find? (fun l => l.id == log_id) with
      | none => (db, .error (.typeError noneSubscriptMsg))
      | some log =>
        if log.username = user then
          match form.workout_datetime with
          | none => (db, .error (.valueError strptimeErrorMsg))
          | some iso_date =>
            let entry : WorkoutLog :=
              { id := log.id, routine_id := form.routine_name, date := iso_date,
                notes := form.notes, sets := form.sets, username := user }
            ({ db with workout_logs := updateFirst db.workout_logs log entry },
              .ok (.redirect "workout_log" ["Workout record updated."]))
        else
          (db, .ok (.redirect "workout_log" [permissionEditLogMsg]))
    | .get =>
      let log := db.workout_logs.find? (fun l => l.id == log_id)
      let default_routines := db.routines.filter (fun r => r.username == "admin")
      let user_routines := db.routines.filter (fun r => r.username == user)
      (db, .ok (.page "edit_workout.html"
        (.editWorkout log (default_routines ++ user_routines)) []))

/-- Handler `delete_workout` (src/app.py lines 344-363). -/
def delete_workout (sessionUser : Option String) (log_id : Nat) (db : DB) :
    DB × Except PyError HResult :=
  match sessionUser with
  | none => (db, .ok (.redirect "login" [mustLoginMsg]))
  | some user =>
    match db.workout_logs.find? (fun l => l.id == log_id) with
    | none => (db, .error (.typeError noneSubscriptMsg))
    | some log =>
      if log.username = user then
        ({ db with workout_logs := deleteFirst db.workout_logs log },
          .ok (.redirect "workout_log" ["Workout record deleted."]))
      else
        (db, .ok (.redirect "workout_log" [permissionDeleteLogMsg]))

/-- Handler `my_routines` (src/app.py lines 366-381). -/
def my_routines (sessionUser : Option String) (db : DB) :
    DB × Except PyError HResult :=
  match sessionUser with
  | none => (db, .ok (.redirect "login" [mustLoginMsg]))
  | some user =>
    let default_routines := db.routines.filter (fun r => r.username == "admin")
    let custom_routines := db.routines.filter (fun r => r.username == user)
    (db, .ok (.page "my_routines.html"
      (.myRoutines default_routines custom_routines) []))

/-- The fields of the add/edit routine form. -/
structure RoutineForm where
  routine_name : String
  exercise_one : String
  exercise_one_reps : Int
  exercise_two : String
  exercise_two_reps : Int
  exercise_three : String
  exercise_three_reps : Int
deriving Repr, DecidableEq

/-- The `$or` filter used by `add_routine` and `edit_routine` to look for a
routine with the submitted name owned by the session user or by "admin". -/
def duplicateNameCheck (user routine_name : String) (r : Routine) : Bool :=
  (r.username == user && r.routine_name == routine_name) ||
  (r.username == "admin" && r.routine_name == routine_name)

/-- Handler `add_routine` (src/app.py lines 384-437). -/
def add_routine (sessionUser : Option String) (method : Method) (form : RoutineForm)
    (fresh_id : Nat) (db : DB) : DB × Except PyError HResult :=
  match sessionUser with
  | none => (db, .ok (.redirect "login" [mustLoginMsg]))
  | some user =>
    match method with
    | .post =>
      match db.routines.find? (duplicateNameCheck user form.routine_name) with
      | some _ => (db, .ok (.redirect "add_routine" [duplicateRoutineMsg]))
      | none =>
        let new_routine : Routine :=
          { id := fresh_id, routine_name := form.routine_name,
            exercise_one := form.exercise_one,
            exercise_one_reps := form.exercise_one_reps,
            exercise_two := form.exercise_two,
            exercise_two_reps := form.exercise_two_reps,
            exercise_three := form.exercise_three,
            exercise_three_reps := form.exercise_three_reps,
            username := user }
        ({ db with routines := db.routines ++ [new_routine] },
          .ok (.redirect "my_routines" ["New routine successfully added."]))
    | .get => (db, .ok (.page "add_routine.html" .empty []))

/-- Handler `edit_routine` (src/app.py lines 440-512).  On POST: subscripting a
missing routine raises `TypeError`; a non-owner is redirected; if the
submitted name changed and the session user or "admin" already has a routine
of that name the user is redirected back; otherwise the `$set` update
replaces the fields, keeping the document's `_id`. -/
def edit_routine (sessionUser : Option String) (method : Method)
    (routine_id : Nat) (form : RoutineForm) (db : DB) :
    DB × Except PyError HResult :=
  match sessionUser with
  | none => (db, .ok (.redirect "login" [mustLoginMsg]))
  | some user =>
    match method with
    | .post =>
      match db.routines.find? (fun r => r.id == routine_id) with
      | none => (db, .error (.typeError noneSubscriptMsg))
      | some routine =>
        if routine.username = user then
          if form.routine_name != routine.routine_name &&
              (db.routines.find? (duplicateNameCheck user form.routine_name)).isSome then
            (db, .ok (.redirect "edit_routine" [duplicateRoutineMsg]))
          else
            let entry : Routine :=
              { id := routine.id, routine_name := form.routine_name,
                exercise_one := form.exercise_one,
                exercise_one_reps := form.exercise_one_reps,
                exercise_two := form.exercise_two,
                exercise_two_reps := form.exercise_two_reps,
                exercise_three := form.exercise_three,
                exercise_three_reps := form.exercise_three_reps,
                username := user }
            ({ db with routines := updateFirst db.routines routine entry },
              .ok (.redirect "my_routines" ["Routine updated."]))
        else
          (db, .ok (.redirect "my_routines" [permissionEditRoutineMsg]))
    | .get =>
      let routine := db.routines.find? (fun r => r.id == routine_id)
      (db, .ok (.page "edit_routine.html" (.editRoutine routine) []))

/-- Handler `delete_routine` (src/app.py lines 515-533).  Subscripting a missing
routine raises `TypeError`.  For the owner, `delete_many` removes every
workout log whose `routine_id` matches, whoever owns it, and `delete_one`
removes the routine.  A non-owner falls off the end of the function, which
returns Python `None`. -/
def delete_routine (sessionUser : Option String) (routine_id : Nat) (db : DB) :
    DB × Except PyError HResult :=
  match sessionUser with
  | none => (db, .ok (.redirect "login" [mustLoginMsg]))
  | some user =>
    match db.routines.find? (fun r => r.id == routine_id) with
    | none => (db, .error (.typeError noneSubscriptMsg))
    | some routine =>
      if routine.username = user then
        ({ db with
            routines := deleteFirst db.routines routine,
            workout_logs :=
              db.workout_logs.filter (fun l => !(l.routine_id == routine_id)) },
          .ok (.redirect "my_routines" ["Routine and workout logs deleted."]))
      else
        (db, .ok .pyNone)

/-- Python `max(x :: xs, key=lambda l: l.sets)`: the first element whose
`sets` field is maximal (later elements replace the accumulator only when
strictly greater). -/
def maxBySets (x : WorkoutLog) : List WorkoutLog → WorkoutLog
  | [] => x
  | y :: ys => maxBySets (if x.sets < y.sets then y else x) ys

/-- Handler `track_progress` (src/app.py lines 536-579).  The query filters the
workout logs by the given username and routine id and sorts ascending by
date; if any were found the page receives the dates as chart labels, the set
counts as chart values and the log with the most sets as the personal
best. -/
def track_progress (sessionUser : Option String) (username : String)
    (routine_id : Nat) (db : DB) : DB × Except PyError HResult :=
  match sessionUser with
  | none => (db, .ok (.redirect "login" [mustLoginMsg]))
  | some _ =>
    let logs := List.insertionSort (fun a b => a.date ≤ b.date)
      (db.workout_logs.filter
        (fun l => l.username == username && l.routine_id == routine_id))
    match logs with
    | [] => (db, .ok (.redirect "my_routines" ["No workouts recorded with this routine."]))
    | l :: ls =>
      let labels := (l :: ls).map (fun x => x.date)
      let values := (l :: ls).map (fun x => x.sets)
      let best := maxBySets l ls
      let routine := db.routines.find? (fun r => r.id == routine_id)
      (db, .ok (.page "track_progress.html"
        (.progress labels values best routine) []))

/-! ## Claim theorems -/

/-- C8: every CRUD operation over routines and workout logs is gated by
session authentication: with no user in the session, each of the nine
decorated handlers redirects to the login page and leaves the database
unchanged. -/
theorem C8_login_gate (db : DB) (filter_args : Option (Option Nat × Option Nat))
    (wform : WorkoutForm) (rform : RoutineForm) (rn : Option String)
    (fid lid rid : Nat) (m : Method) (uname : String) :
    workout_log none filter_args db = (db, .ok (.redirect "login" [mustLoginMsg])) ∧
    add_workout none m wform rn fid db = (db, .ok (.redirect "login" [mustLoginMsg])) ∧
    edit_workout none m lid wform db = (db, .ok (.redirect "login" [mustLoginMsg])) ∧
    delete_workout none lid db = (db, .ok (.redirect "login" [mustLoginMsg])) ∧
    my_routines none db = (db, .ok (.redirect "login" [mustLoginMsg])) ∧
    add_routine none m rform fid db = (db, .ok (.redirect "login" [mustLoginMsg])) ∧
    edit_routine none m rid rform db = (db, .ok (.redirect "login" [mustLoginMsg])) ∧
    delete_routine none rid db = (db, .ok (.redirect "login" [mustLoginMsg])) ∧
    track_progress none uname rid db = (db, .ok (.redirect "login" [mustLoginMsg])) :=
  ⟨rfl, rfl, rfl, rfl, rfl, rfl, rfl, rfl, rfl⟩

/-- C9: a logged-in non-owner requesting `delete_routine` on an existing
routine falls through the ownership check and gets Python `None` back — no
redirect and no page — while the database is left unchanged. -/
theorem C9_delete_routine_fallthrough (db : DB) (user : String) (rid : Nat)
    (routine : Routine)
    (hfind : db.routines.find? (fun r => r.id == rid) = some routine)
    (howner : routine.username ≠ user) :
    delete_routine (some user) rid db = (db, .ok .pyNone) := by
  simp [delete_routine, hfind, howner]

/-- Witness for C9 at a concrete input. -/
theorem C9_delete_routine_fallthrough_witness :
    delete_routine (some "bob") 1
        (DB.mk [] [⟨1, "Legs", "Squat", 5, "Lunge", 5, "Jump", 5, "alice"⟩] []) =
      ((DB.mk [] [⟨1, "Legs", "Squat", 5, "Lunge", 5, "Jump", 5, "alice"⟩] []),
        .ok .pyNone) :=
  C9_delete_routine_fallthrough _ "bob" 1
    ⟨1, "Legs", "Squat", 5, "Lunge", 5, "Jump", 5, "alice"⟩ (by decide) (by decide)

/-- C10: for `edit_workout` POST, `delete_workout`, `edit_routine` POST and
`delete_routine` with an id matching no record, the `find_one` lookup yields
no record and the subscript on the missing record raises a `TypeError`
(no error page is produced); the database is left unchanged. -/
theorem C10_missing_record (db : DB) (user : String) (lid rid : Nat)
    (wform : WorkoutForm) (rform : RoutineForm)
    (hlog : db.workout_logs.find? (fun l => l.id == lid) = none)
    (hrt : db.routines.find? (fun r => r.id == rid) = none) :
    edit_workout (some user) .post lid wform db =
      (db, .error (.typeError noneSubscriptMsg)) ∧
    delete_workout (some user) lid db =
      (db, .error (.typeError noneSubscriptMsg)) ∧
    edit_routine (some user) .post rid rform db =
      (db, .error (.typeError noneSubscriptMsg)) ∧
    delete_routine (some user) rid db =
      (db, .error (.typeError noneSubscriptMsg)) := by
  refine ⟨?_, ?_, ?_, ?_⟩ <;>
    simp [edit_workout, delete_workout, edit_routine, delete_routine, hlog, hrt]

/-- Witness for C10 at a concrete input. -/
theorem C10_missing_record_witness :
    edit_workout (some "alice") .post 9 ⟨1, some 0, "", 3⟩ (DB.mk [] [] []) =
      ((DB.mk [] [] []), .error (.typeError noneSubscriptMsg)) ∧
    delete_workout (some "alice") 9 (DB.mk [] [] []) =
      ((DB.mk [] [] []), .error (.typeError noneSubscriptMsg)) ∧
    edit_routine (some "alice") .post 9 ⟨"R", "a", 1, "b", 2, "c", 3⟩ (DB.mk [] [] []) =
      ((DB.mk [] [] []), .error (.typeError noneSubscriptMsg)) ∧
    delete_routine (some "alice") 9 (DB.mk [] [] []) =
      ((DB.mk [] [] []), .error (.typeError noneSubscriptMsg)) :=
  C10_missing_record (DB.mk [] [] []) "alice" 9 9 ⟨1, some 0, "", 3⟩
    ⟨"R", "a", 1, "b", 2, "c", 3⟩ rfl rfl

/-- C1: `edit_workout` POST, `delete_workout` and `edit_routine` POST on an
existing record whose owner is not the session user leave the database
unchanged and redirect away with a permission message. -/
theorem C1_owner_gate (db : DB) (user : String) (lid rid : Nat)
    (wform : WorkoutForm) (rform : RoutineForm) (log : WorkoutLog)
    (routine : Routine)
    (hlog : db.workout_logs.find? (fun l => l.id == lid) = some log)
    (hlog_owner : log.username ≠ user)
    (hrt : db.routines.find? (fun r => r.id == rid) = some routine)
    (hrt_owner : routine.username ≠ user) :
    edit_workout (some user) .post lid wform db =
      (db, .ok (.redirect "workout_log" [permissionEditLogMsg])) ∧
    delete_workout (some user) lid db =
      (db, .ok (.redirect "workout_log" [permissionDeleteLogMsg])) ∧
    edit_routine (some user) .post rid rform db =
      (db, .ok (.redirect "my_routines" [permissionEditRoutineMsg])) := by
  refine ⟨?_, ?_, ?_⟩ <;>
    simp [edit_workout, delete_workout, edit_routine, hlog, hrt, hlog_owner, hrt_owner]

/-- Witness for C1 at a concrete input. -/
theorem C1_owner_gate_witness :
    edit_workout (some "bob") .post 7 ⟨1, some 0, "", 3⟩
        (DB.mk [] [⟨2, "Legs", "Squat", 5, "Lunge", 5, "Jump", 5, "alice"⟩]
          [⟨7, 2, 100, "", 3, "alice"⟩]) =
      ((DB.mk [] [⟨2, "Legs", "Squat", 5, "Lunge", 5, "Jump", 5, "alice"⟩]
          [⟨7, 2, 100, "", 3, "alice"⟩]),
        .ok (.redirect "workout_log" [permissionEditLogMsg])) ∧
    delete_workout (some "bob") 7
        (DB.mk [] [⟨2, "Legs", "Squat", 5, "Lunge", 5, "Jump", 5, "alice"⟩]
          [⟨7, 2, 100, "", 3, "alice"⟩]) =
      ((DB.mk [] [⟨2, "Legs", "Squat", 5, "Lunge", 5, "Jump", 5, "alice"⟩]
          [⟨7, 2, 100, "", 3, "alice"⟩]),
        .ok (.redirect "workout_log" [permissionDeleteLogMsg])) ∧
    edit_routine (some "bob") .post 2 ⟨"R", "a", 1, "b", 2, "c", 3⟩
        (DB.mk [] [⟨2, "Legs", "Squat", 5, "Lunge", 5, "Jump", 5, "alice"⟩]
          [⟨7, 2, 100, "", 3, "alice"⟩]) =
      ((DB.mk [] [⟨2, "Legs", "Squat", 5, "Lunge", 5, "Jump", 5, "alice"⟩]
          [⟨7, 2, 100, "", 3, "alice"⟩]),
        .ok (.redirect "my_routines" [permissionEditRoutineMsg])) :=
  C1_owner_gate _ "bob" 7 2 ⟨1, some 0, "", 3⟩ ⟨"R", "a", 1, "b", 2, "c", 3⟩
    ⟨7, 2, 100, "", 3, "alice"⟩ ⟨2, "Legs", "Squat", 5, "Lunge", 5, "Jump", 5, "alice"⟩
    (by decide) (by decide) (by decide) (by decide)

/-- C2 counterexample: `delete_many` removes every workout log whose
`routine_id` matches the deleted routine, whoever owns it.  Here the
session user "alice" owns routine 1, but the workout log removed with it is
owned by "bob": a record whose owner is not the session user is deleted,
refuting the claim at this input. -/
theorem C2_counterexample :
    (⟨7, 1, 100, "", 3, "bob"⟩ : WorkoutLog) ∈
      (DB.mk [] [⟨1, "Legs", "Squat", 5, "Lunge", 5, "Jump", 5, "alice"⟩]
        [⟨7, 1, 100, "", 3, "bob"⟩]).workout_logs ∧
    ("bob" : String) ≠ "alice" ∧
    delete_routine (some "alice") 1
        (DB.mk [] [⟨1, "Legs", "Squat", 5, "Lunge", 5, "Jump", 5, "alice"⟩]
          [⟨7, 1, 100, "", 3, "bob"⟩]) =
      ((DB.mk [] [] []),
        .ok (.redirect "my_routines" ["Routine and workout logs deleted."])) := by
  decide

/-- C2 amended: when a logged-in user deletes a routine they own, the
routine removed is owned by the session user, and the workout logs removed
are exactly those whose `routine_id` equals the requested routine id —
including logs owned by other users.  Logs with a different `routine_id`
survive, whoever owns them, and the users collection is untouched. -/
theorem C2_delete_routine_frame (db : DB) (user : String) (rid : Nat)
    (routine : Routine)
    (hfind : db.routines.find? (fun r => r.id == rid) = some routine)
    (howner : routine.username = user) :
    delete_routine (some user) rid db =
      ({ db with
          routines := deleteFirst db.routines routine,
          workout_logs := db.workout_logs.filter (fun l => !(l.routine_id == rid)) },
        .ok (.redirect "my_routines" ["Routine and workout logs deleted."])) ∧
    routine.username = user ∧
    (∀ l ∈ db.workout_logs, l.routine_id ≠ rid →
      l ∈ (delete_routine (some user) rid db).1.workout_logs) ∧
    (∀ l ∈ db.workout_logs, l ∉ (delete_routine (some user) rid db).1.workout_logs →
      l.routine_id = rid) ∧
    (delete_routine (some user) rid db).1.users = db.users := by
  have heq : delete_routine (some user) rid db =
      ({ db with
          routines := deleteFirst db.routines routine,
          workout_logs := db.workout_logs.filter (fun l => !(l.routine_id == rid)) },
        .ok (.redirect "my_routines" ["Routine and workout logs deleted."])) := by
    simp [delete_routine, hfind, howner]
  refine ⟨heq, howner, ?_, ?_, ?_⟩
  · intro l hl hne
    rw [heq]
    exact List.mem_filter.mpr ⟨hl, by simp [hne]⟩
  · intro l hl hnotmem
    rw [heq] at hnotmem
    by_contra hne
    exact hnotmem (List.mem_filter.mpr ⟨hl, by simp [hne]⟩)
  · rw [heq]

/-- Witness for C2 amended at a concrete input: "alice" deletes her routine
1; her own log for routine 1 and "bob"'s log for routine 1 are removed,
while "bob"'s log for routine 2 survives. -/
theorem C2_delete_routine_frame_witness :
    delete_routine (some "alice") 1
        (DB.mk [] [⟨1, "Legs", "Squat", 5, "Lunge", 5, "Jump", 5, "alice"⟩]
          [⟨7, 1, 100, "", 3, "alice"⟩, ⟨8, 1, 110, "", 4, "bob"⟩,
            ⟨9, 2, 120, "", 5, "bob"⟩]) =
      ({ users := [], routines := deleteFirst
            [⟨1, "Legs", "Squat", 5, "Lunge", 5, "Jump", 5, "alice"⟩]
            ⟨1, "Legs", "Squat", 5, "Lunge", 5, "Jump", 5, "alice"⟩,
          workout_logs := List.filter (fun l => !(l.routine_id == 1))
            [⟨7, 1, 100, "", 3, "alice"⟩, ⟨8, 1, 110, "", 4, "bob"⟩,
              ⟨9, 2, 120, "", 5, "bob"⟩] },
        .ok (.redirect "my_routines" ["Routine and workout logs deleted."])) ∧
    ("alice" : String) = "alice" ∧
    (∀ l ∈ [(⟨7, 1, 100, "", 3, "alice"⟩ : WorkoutLog), ⟨8, 1, 110, "", 4, "bob"⟩,
        ⟨9, 2, 120, "", 5, "bob"⟩], l.routine_id ≠ 1 →
      l ∈ (delete_routine (some "alice") 1
        (DB.mk [] [⟨1, "Legs", "Squat", 5, "Lunge", 5, "Jump", 5, "alice"⟩]
          [⟨7, 1, 100, "", 3, "alice"⟩, ⟨8, 1, 110, "", 4, "bob"⟩,
            ⟨9, 2, 120, "", 5, "bob"⟩])).1.workout_logs) ∧
    (∀ l ∈ [(⟨7, 1, 100, "", 3, "alice"⟩ : WorkoutLog), ⟨8, 1, 110, "", 4, "bob"⟩,
        ⟨9, 2, 120, "", 5, "bob"⟩],
      l ∉ (delete_routine (some "alice") 1
        (DB.mk [] [⟨1, "Legs", "Squat", 5, "Lunge", 5, "Jump", 5, "alice"⟩]
          [⟨7, 1, 100, "", 3, "alice"⟩, ⟨8, 1, 110, "", 4, "bob"⟩,
            ⟨9, 2, 120, "", 5, "bob"⟩])).1.workout_logs →
      l.routine_id = 1) ∧
    (delete_routine (some "alice") 1
        (DB.mk [] [⟨1, "Legs", "Squat", 5, "Lunge", 5, "Jump", 5, "alice"⟩]
          [⟨7, 1, 100, "", 3, "alice"⟩, ⟨8, 1, 110, "", 4, "bob"⟩,
            ⟨9, 2, 120, "", 5, "bob"⟩])).1.users = [] :=
  C2_delete_routine_frame _ "alice" 1
    ⟨1, "Legs", "Squat", 5, "Lunge", 5, "Jump", 5, "alice"⟩ (by decide) (by decide)

/-- The duplicate-name filter holds of a routine exactly when its name is
the submitted one and its owner is the session user or "admin". -/
theorem duplicateNameCheck_iff (user name : String) (r : Routine) :
    duplicateNameCheck user name r = true ↔
      r.routine_name = name ∧ (r.username = user ∨ r.username = "admin") := by
  simp only [duplicateNameCheck, Bool.or_eq_true, Bool.and_eq_true, beq_iff_eq]
  tauto

/-- C3 counterexample: with the session logged in as "admin", the duplicate
check only consults routines owned by "admin" itself, so `add_routine`
inserts a routine named "X" although "alice" already owns a routine named
"X" — the database changes and no duplicate-name redirect is produced,
refuting global uniqueness of admin-owned names at this input. -/
theorem C3_counterexample :
    (∃ r ∈ (DB.mk [] [⟨1, "X", "a", 1, "b", 2, "c", 3, "alice"⟩] [] : DB).routines,
      r.routine_name = "X") ∧
    add_routine (some "admin") .post ⟨"X", "a", 1, "b", 2, "c", 3⟩ 2
        (DB.mk [] [⟨1, "X", "a", 1, "b", 2, "c", 3, "alice"⟩] []) =
      ((DB.mk [] [⟨1, "X", "a", 1, "b", 2, "c", 3, "alice"⟩,
          ⟨2, "X", "a", 1, "b", 2, "c", 3, "admin"⟩] []),
        .ok (.redirect "my_routines" ["New routine successfully added."])) := by
  decide

/-- C3 amended: the duplicate check of `add_routine` POST and of
`edit_routine` POST (by the routine's owner, with a changed name) consults
the routines owned by the current session user or by "admin": when such a
routine with the submitted name exists the database is unchanged and the
user is redirected back with the duplicate-name message, and otherwise the
insert resp. update goes through.  (A session logged in as "admin" therefore
checks only admin-owned routines, and can duplicate another user's routine
name, as the counterexample shows.) -/
theorem C3_routine_name_check (db : DB) (user : String) (form : RoutineForm)
    (fresh_id rid : Nat) (routine : Routine)
    (hfind : db.routines.find? (fun r => r.id == rid) = some routine)
    (howner : routine.username = user)
    (hchanged : form.routine_name ≠ routine.routine_name) :
    ((∃ r ∈ db.routines, r.routine_name = form.routine_name ∧
        (r.username = user ∨ r.username = "admin")) →
      add_routine (some user) .post form fresh_id db =
        (db, .ok (.redirect "add_routine" [duplicateRoutineMsg])) ∧
      edit_routine (some user) .post rid form db =
        (db, .ok (.redirect "edit_routine" [duplicateRoutineMsg]))) ∧
    ((∀ r ∈ db.routines, ¬(r.routine_name = form.routine_name ∧
        (r.username = user ∨ r.username = "admin"))) →
      add_routine (some user) .post form fresh_id db =
        ({ db with routines := db.routines ++
            [⟨fresh_id, form.routine_name, form.exercise_one, form.exercise_one_reps,
              form.exercise_two, form.exercise_two_reps, form.exercise_three,
              form.exercise_three_reps, user⟩] },
          .ok (.redirect "my_routines" ["New routine successfully added."])) ∧
      edit_routine (some user) .post rid form db =
        ({ db with routines := (updateFirst db.routines routine
            ⟨routine.id, form.routine_name, form.exercise_one, form.exercise_one_reps,
              form.exercise_two, form.exercise_two_reps, form.exercise_three,
              form.exercise_three_reps, user⟩) },
          .ok (.redirect "my_routines" ["Routine updated."]))) := by
  constructor
  · intro hdup
    obtain ⟨r, hr, hname, hown⟩ := hdup
    have hsome : (db.routines.find? (duplicateNameCheck user form.routine_name)).isSome := by
      exact List.find?_isSome.mpr
        ⟨r, hr, (duplicateNameCheck_iff user form.routine_name r).mpr ⟨hname, hown⟩⟩
    obtain ⟨dup, hdupfind⟩ := Option.isSome_iff_exists.mp hsome
    constructor
    · simp [add_routine, hdupfind]
    · simp [edit_routine, hfind, howner, hdupfind, hchanged]
  · intro hnodup
    have hnone : db.routines.find? (duplicateNameCheck user form.routine_name) = none := by
      refine List.find?_eq_none.mpr (fun r hr hpr => ?_)
      exact hnodup r hr ((duplicateNameCheck_iff user form.routine_name r).mp hpr)
    constructor
    · simp [add_routine, hnone]
    · simp [edit_routine, hfind, howner, hnone, hchanged]

/-- Witness for C3 amended at concrete inputs: with "alice" logged in, a
routine named "Legs" owned by "admin" blocks `add_routine` and a rename to
"Legs" in `edit_routine`, while the fresh name "Arms" goes through. -/
theorem C3_routine_name_check_witness :
    (add_routine (some "alice") .post ⟨"Legs", "a", 1, "b", 2, "c", 3⟩ 3
        (DB.mk [] [⟨1, "Legs", "a", 1, "b", 2, "c", 3, "admin"⟩,
          ⟨2, "Push", "a", 1, "b", 2, "c", 3, "alice"⟩] []) =
      ((DB.mk [] [⟨1, "Legs", "a", 1, "b", 2, "c", 3, "admin"⟩,
          ⟨2, "Push", "a", 1, "b", 2, "c", 3, "alice"⟩] []),
        .ok (.redirect "add_routine" [duplicateRoutineMsg])) ∧
    edit_routine (some "alice") .post 2 ⟨"Legs", "a", 1, "b", 2, "c", 3⟩
        (DB.mk [] [⟨1, "Legs", "a", 1, "b", 2, "c", 3, "admin"⟩,
          ⟨2, "Push", "a", 1, "b", 2, "c", 3, "alice"⟩] []) =
      ((DB.mk [] [⟨1, "Legs", "a", 1, "b", 2, "c", 3, "admin"⟩,
          ⟨2, "Push", "a", 1, "b", 2, "c", 3, "alice"⟩] []),
        .ok (.redirect "edit_routine" [duplicateRoutineMsg]))) ∧
    (add_routine (some "alice") .post ⟨"Arms", "a", 1, "b", 2, "c", 3⟩ 3
        (DB.mk [] [⟨1, "Legs", "a", 1, "b", 2, "c", 3, "admin"⟩,
          ⟨2, "Push", "a", 1, "b", 2, "c", 3, "alice"⟩] []) =
      ((DB.mk [] [⟨1, "Legs", "a", 1, "b", 2, "c", 3, "admin"⟩,
          ⟨2, "Push", "a", 1, "b", 2, "c", 3, "alice"⟩,
          ⟨3, "Arms", "a", 1, "b", 2, "c", 3, "alice"⟩] []),
        .ok (.redirect "my_routines" ["New routine successfully added."])) ∧
    edit_routine (some "alice") .post 2 ⟨"Arms", "a", 1, "b", 2, "c", 3⟩
        (DB.mk [] [⟨1, "Legs", "a", 1, "b", 2, "c", 3, "admin"⟩,
          ⟨2, "Push", "a", 1, "b", 2, "c", 3, "alice"⟩] []) =
      ((DB.mk [] [⟨1, "Legs", "a", 1, "b", 2, "c", 3, "admin"⟩,
          ⟨2, "Arms", "a", 1, "b", 2, "c", 3, "alice"⟩] []),
        .ok (.redirect "my_routines" ["Routine updated."]))) :=
  ⟨C3_routine_name_check
      (DB.mk [] [⟨1, "Legs", "a", 1, "b", 2, "c", 3, "admin"⟩,
        ⟨2, "Push", "a", 1, "b", 2, "c", 3, "alice"⟩] [])
      "alice" ⟨"Legs", "a", 1, "b", 2, "c", 3⟩ 3 2
      ⟨2, "Push", "a", 1, "b", 2, "c", 3, "alice"⟩ (by decide) (by decide) (by decide)
      |>.1 (by decide),
    C3_routine_name_check
      (DB.mk [] [⟨1, "Legs", "a", 1, "b", 2, "c", 3, "admin"⟩,
        ⟨2, "Push", "a", 1, "b", 2, "c", 3, "alice"⟩] [])
      "alice" ⟨"Arms", "a", 1, "b", 2, "c", 3⟩ 3 2
      ⟨2, "Push", "a", 1, "b", 2, "c", 3, "alice"⟩ (by decide) (by decide) (by decide)
      |>.2 (by decide)⟩

/-- C4 counterexample: the `strptime` call in `edit_workout` POST
(src/app.py line 309) is not wrapped in try/except, so a malformed
date/time submitted by the log's owner raises an uncaught `ValueError`
(`Except.error`, a 500) instead of returning an error page or redirect,
refuting the claim at this input.  (The database is still unchanged.) -/
theorem C4_counterexample :
    edit_workout (some "alice") .post 7 ⟨1, none, "", 3⟩
        (DB.mk [] [] [⟨7, 1, 100, "", 3, "alice"⟩]) =
      ((DB.mk [] [] [⟨7, 1, 100, "", 3, "alice"⟩]),
        .error (.valueError strptimeErrorMsg)) := by
  decide

/-- C4 amended: on a malformed date or time string, `add_workout` POST and
the `workout_log` date filter redirect back with an error message and leave
the database unchanged; `edit_workout` POST by the log's owner instead
raises an uncaught `ValueError` (still leaving the database unchanged). -/
theorem C4_malformed_dates (db : DB) (user : String) (wform : WorkoutForm)
    (rn : Option String) (fresh_id lid : Nat) (pf pt : Option Nat)
    (log : WorkoutLog)
    (hbad : wform.workout_datetime = none)
    (hpfpt : pf = none ∨ pt = none)
    (hlog : db.workout_logs.find? (fun l => l.id == lid) = some log)
    (howner : log.username = user) :
    add_workout (some user) .post wform rn fresh_id db =
      (db, .ok (.redirect "add_workout" [invalidDateTimeMsg])) ∧
    workout_log (some user) (some (pf, pt)) db =
      (db, .ok (.redirect "workout_log" [invalidDateMsg])) ∧
    edit_workout (some user) .post lid wform db =
      (db, .error (.valueError strptimeErrorMsg)) := by
  refine ⟨?_, ?_, ?_⟩
  · simp [add_workout, hbad]
  · rcases hpfpt with h | h
    · subst h; cases pt <;> simp [workout_log]
    · subst h; cases pf <;> simp [workout_log]
  · simp [edit_workout, hlog, howner, hbad]

/-- Witness for C4 amended at a concrete input (both date parameters
malformed, the log owned by the session user). -/
theorem C4_malformed_dates_witness :
    add_workout (some "alice") .post ⟨1, none, "", 3⟩ none 8
        (DB.mk [] [] [⟨7, 1, 100, "", 3, "alice"⟩]) =
      ((DB.mk [] [] [⟨7, 1, 100, "", 3, "alice"⟩]),
        .ok (.redirect "add_workout" [invalidDateTimeMsg])) ∧
    workout_log (some "alice") (some (none, none))
        (DB.mk [] [] [⟨7, 1, 100, "", 3, "alice"⟩]) =
      ((DB.mk [] [] [⟨7, 1, 100, "", 3, "alice"⟩]),
        .ok (.redirect "workout_log" [invalidDateMsg])) ∧
    edit_workout (some "alice") .post 7 ⟨1, none, "", 3⟩
        (DB.mk [] [] [⟨7, 1, 100, "", 3, "alice"⟩]) =
      ((DB.mk [] [] [⟨7, 1, 100, "", 3, "alice"⟩]),
        .error (.valueError strptimeErrorMsg)) :=
  C4_malformed_dates (DB.mk [] [] [⟨7, 1, 100, "", 3, "alice"⟩]) "alice"
    ⟨1, none, "", 3⟩ none 8 7 none none ⟨7, 1, 100, "", 3, "alice"⟩
    rfl (Or.inl rfl) (by decide) (by decide)

/-- C5: with valid `date_from` and `date_to` parameters, `workout_log`
renders exactly the logs owned by the session user whose date `d` satisfies
`date_from ≤ d < date_to at 23:59:59`, each joined with its routine by
`routine_id`; the database is unchanged, and a log timestamped exactly
23:59:59 on the `date_to` day is excluded (the bound is strict). -/
theorem C5_workout_log_date_filter (db : DB) (user : String)
    (from_day to_day : Nat) :
    ∃ logs : List LogWithRoutine,
      workout_log (some user) (some (some from_day, some to_day)) db =
        (db, .ok (.page "workout_log.html" (.logs logs) [])) ∧
      List.Perm logs ((db.workout_logs.filter
        (fun l => l.username == user && decide (from_day * secondsPerDay ≤ l.date) &&
          decide (l.date < to_day * secondsPerDay + lastSecondOfDay))).map
        (lookupRoutine db)) ∧
      (∀ x : LogWithRoutine, x ∈ logs ↔
        ∃ l ∈ db.workout_logs, l.username = user ∧
          from_day * secondsPerDay ≤ l.date ∧
          l.date < to_day * secondsPerDay + lastSecondOfDay ∧
          x = lookupRoutine db l) ∧
      (∀ x ∈ logs, x.log.date ≠ to_day * secondsPerDay + lastSecondOfDay) := by
  refine ⟨_, rfl, List.perm_insertionSort _ _, ?_, ?_⟩
  · intro x
    simp only [List.mem_insertionSort, List.mem_map, List.mem_filter,
      Bool.and_eq_true, beq_iff_eq, decide_eq_true_eq]
    constructor
    · rintro ⟨l, ⟨hl, ⟨hu, h1⟩, h2⟩, hx⟩
      exact ⟨l, hl, hu, h1, h2, hx.symm⟩
    · rintro ⟨l, hl, hu, h1, h2, hx⟩
      exact ⟨l, ⟨hl, ⟨hu, h1⟩, h2⟩, hx.symm⟩
  · intro x hx
    simp only [List.mem_insertionSort, List.mem_map, List.mem_filter,
      Bool.and_eq_true, beq_iff_eq, decide_eq_true_eq] at hx
    obtain ⟨l, ⟨_, _, h2⟩, hx⟩ := hx
    rw [← hx]
    exact Nat.ne_of_lt h2

instance : IsTotal WorkoutLog (fun a b => a.date ≤ b.date) :=
  ⟨fun a b => Nat.le_total a.date b.date⟩

instance : IsTrans WorkoutLog (fun a b => a.date ≤ b.date) :=
  ⟨fun _ _ _ hab hbc => Nat.le_trans hab hbc⟩

/-- The scan `maxBySets` returns an element of the scanned list. -/
theorem maxBySets_mem (x : WorkoutLog) (xs : List WorkoutLog) :
    maxBySets x xs ∈ x :: xs := by
  induction xs generalizing x with
  | nil => simp [maxBySets]
  | cons y ys ih =>
    simp only [maxBySets]
    by_cases hc : x.sets < y.sets
    · rw [if_pos hc]
      exact List.mem_cons_of_mem _ (ih y)
    · rw [if_neg hc]
      rcases List.mem_cons.mp (ih x) with h | h
      · rw [h]
        exact List.mem_cons_self _ _
      · exact List.mem_cons_of_mem _ (List.mem_cons_of_mem _ h)

/-- Every element of the scanned list has at most as many sets as the
element `maxBySets` returns. -/
theorem sets_le_maxBySets (x : WorkoutLog) (xs : List WorkoutLog) :
    ∀ y ∈ x :: xs, y.sets ≤ (maxBySets x xs).sets := by
  induction xs generalizing x with
  | nil =>
    intro y hy
    rcases List.mem_cons.mp hy with h | h
    · rw [h]; simp [maxBySets]
    · exact absurd h (List.not_mem_nil _)
  | cons y0 ys ih =>
    intro y hy
    simp only [maxBySets]
    by_cases hc : x.sets < y0.sets
    · rw [if_pos hc]
      rcases List.mem_cons.mp hy with h | h
      · rw [h]
        exact le_trans (le_of_lt hc) (ih y0 y0 (List.mem_cons_self _ _))
      · rcases List.mem_cons.mp h with h2 | h2
        · rw [h2]
          exact ih y0 y0 (List.mem_cons_self _ _)
        · exact ih y0 y (List.mem_cons_of_mem _ h2)
    · rw [if_neg hc]
      rcases List.mem_cons.mp hy with h | h
      · rw [h]
        exact ih x x (List.mem_cons_self _ _)
      · rcases List.mem_cons.mp h with h2 | h2
        · rw [h2]
          exact le_trans (not_lt.mp hc) (ih x x (List.mem_cons_self _ _))
        · exact ih x y (List.mem_cons_of_mem _ h2)

/-- C6: when the given username has at least one workout log for the given
routine, `track_progress` renders a page whose personal best is one of that
user's logs for the routine with `sets` greater than or equal to the `sets`
of every other such log, and whose labels and values are the dates and set
counts of those logs in ascending date order; the database is unchanged. -/
theorem C6_track_progress_best (db : DB) (sess username : String) (rid : Nat)
    (hex : ∃ l ∈ db.workout_logs, l.username = username ∧ l.routine_id = rid) :
    ∃ sorted_logs : List WorkoutLog, ∃ best : WorkoutLog,
      track_progress (some sess) username rid db =
        (db, .ok (.page "track_progress.html"
          (.progress (sorted_logs.map (fun l => l.date))
            (sorted_logs.map (fun l => l.sets)) best
            (db.routines.find? (fun r => r.id == rid))) [])) ∧
      best ∈ db.workout_logs ∧ best.username = username ∧
      best.routine_id = rid ∧
      (∀ l ∈ db.workout_logs, l.username = username → l.routine_id = rid →
        l.sets ≤ best.sets) ∧
      (∀ l, l ∈ sorted_logs ↔
        l ∈ db.workout_logs ∧ l.username = username ∧ l.routine_id = rid) ∧
      List.Sorted (fun a b : WorkoutLog => a.date ≤ b.date) sorted_logs := by
  have hne : List.insertionSort (fun a b : WorkoutLog => a.date ≤ b.date)
      (db.workout_logs.filter
        (fun l => l.username == username && l.routine_id == rid)) ≠ [] := by
    intro hnil
    obtain ⟨l, hl, hu, hr⟩ := hex
    have hmem : l ∈ List.insertionSort (fun a b : WorkoutLog => a.date ≤ b.date)
        (db.workout_logs.filter
          (fun l => l.username == username && l.routine_id == rid)) := by
      rw [List.mem_insertionSort]
      exact List.mem_filter.mpr ⟨hl, by simp [hu, hr]⟩
    rw [hnil] at hmem
    exact absurd hmem (List.not_mem_nil _)
  rcases hcons : List.insertionSort (fun a b : WorkoutLog => a.date ≤ b.date)
      (db.workout_logs.filter
        (fun l => l.username == username && l.routine_id == rid)) with _ | ⟨b0, L⟩
  · exact absurd hcons hne
  · refine ⟨b0 :: L, maxBySets b0 L, ?_, ?_, ?_, ?_, ?_, ?_, ?_⟩
    · simp only [track_progress, hcons]
    · have hmem : maxBySets b0 L ∈ db.workout_logs.filter
          (fun l => l.username == username && l.routine_id == rid) := by
        rw [← List.mem_insertionSort (fun a b : WorkoutLog => a.date ≤ b.date), hcons]
        exact maxBySets_mem b0 L
      exact (List.mem_filter.mp hmem).1
    · have hmem : maxBySets b0 L ∈ db.workout_logs.filter
          (fun l => l.username == username && l.routine_id == rid) := by
        rw [← List.mem_insertionSort (fun a b : WorkoutLog => a.date ≤ b.date), hcons]
        exact maxBySets_mem b0 L
      have hb := (List.mem_filter.mp hmem).2
      rw [Bool.and_eq_true, beq_iff_eq, beq_iff_eq] at hb
      exact hb.1
    · have hmem : maxBySets b0 L ∈ db.workout_logs.filter
          (fun l => l.username == username && l.routine_id == rid) := by
        rw [← List.mem_insertionSort (fun a b : WorkoutLog => a.date ≤ b.date), hcons]
        exact maxBySets_mem b0 L
      have hb := (List.mem_filter.mp hmem).2
      rw [Bool.and_eq_true, beq_iff_eq, beq_iff_eq] at hb
      exact hb.2
    · intro l hl hu hr
      have hmem : l ∈ b0 :: L := by
        rw [← hcons, List.mem_insertionSort]
        exact List.mem_filter.mpr ⟨hl, by simp [hu, hr]⟩
      exact sets_le_maxBySets b0 L l hmem
    · intro l
      rw [← hcons, List.mem_insertionSort, List.mem_filter]
      simp [and_assoc]
    · rw [← hcons]
      exact List.sorted_insertionSort (fun a b : WorkoutLog => a.date ≤ b.date) _

/-- Witness for C6 at a concrete input: "alice" has three logs for routine
5 (and one for routine 6; "bob" has one for routine 5). -/
theorem C6_track_progress_best_witness :
    ∃ sorted_logs : List WorkoutLog, ∃ best : WorkoutLog,
      track_progress (some "alice") "alice" 5
          (DB.mk [] [⟨5, "Legs", "a", 1, "b", 2, "c", 3, "admin"⟩]
            [⟨1, 5, 20, "", 4, "alice"⟩, ⟨2, 5, 10, "", 2, "alice"⟩,
              ⟨3, 6, 30, "", 9, "alice"⟩, ⟨4, 5, 15, "", 4, "bob"⟩]) =
        ((DB.mk [] [⟨5, "Legs", "a", 1, "b", 2, "c", 3, "admin"⟩]
            [⟨1, 5, 20, "", 4, "alice"⟩, ⟨2, 5, 10, "", 2, "alice"⟩,
              ⟨3, 6, 30, "", 9, "alice"⟩, ⟨4, 5, 15, "", 4, "bob"⟩]),
          .ok (.page "track_progress.html"
            (.progress (sorted_logs.map (fun l => l.date))
              (sorted_logs.map (fun l => l.sets)) best
              ((DB.mk [] [⟨5, "Legs", "a", 1, "b", 2, "c", 3, "admin"⟩]
                [⟨1, 5, 20, "", 4, "alice"⟩, ⟨2, 5, 10, "", 2, "alice"⟩,
                  ⟨3, 6, 30, "", 9, "alice"⟩,
                  ⟨4, 5, 15, "", 4, "bob"⟩] : DB).routines.find?
                (fun r => r.id == 5))) [])) ∧
      best ∈ (DB.mk [] [⟨5, "Legs", "a", 1, "b", 2, "c", 3, "admin"⟩]
          [⟨1, 5, 20, "", 4, "alice"⟩, ⟨2, 5, 10, "", 2, "alice"⟩,
            ⟨3, 6, 30, "", 9, "alice"⟩, ⟨4, 5, 15, "", 4, "bob"⟩] : DB).workout_logs ∧
      best.username = "alice" ∧ best.routine_id = 5 ∧
      (∀ l ∈ (DB.mk [] [⟨5, "Legs", "a", 1, "b", 2, "c", 3, "admin"⟩]
          [⟨1, 5, 20, "", 4, "alice"⟩, ⟨2, 5, 10, "", 2, "alice"⟩,
            ⟨3, 6, 30, "", 9, "alice"⟩, ⟨4, 5, 15, "", 4, "bob"⟩] : DB).workout_logs,
        l.username = "alice" → l.routine_id = 5 → l.sets ≤ best.sets) ∧
      (∀ l, l ∈ sorted_logs ↔
        l ∈ (DB.mk [] [⟨5, "Legs", "a", 1, "b", 2, "c", 3, "admin"⟩]
          [⟨1, 5, 20, "", 4, "alice"⟩, ⟨2, 5, 10, "", 2, "alice"⟩,
            ⟨3, 6, 30, "", 9, "alice"⟩, ⟨4, 5, 15, "", 4, "bob"⟩] : DB).workout_logs ∧
          l.username = "alice" ∧ l.routine_id = 5) ∧
      List.Sorted (fun a b : WorkoutLog => a.date ≤ b.date) sorted_logs :=
  C6_track_progress_best
    (DB.mk [] [⟨5, "Legs", "a", 1, "b", 2, "c", 3, "admin"⟩]
      [⟨1, 5, 20, "", 4, "alice"⟩, ⟨2, 5, 10, "", 2, "alice"⟩,
        ⟨3, 6, 30, "", 9, "alice"⟩, ⟨4, 5, 15, "", 4, "bob"⟩])
    "alice" "alice" 5 (by decide)

/-- C7: usernames are unique case-insensitively.  On a `register` POST with
no session user: if a user record already exists whose username equals the
lowercase form of the submitted username, no user is inserted and the user
is redirected back to registration; otherwise exactly one user record with
the lowercased username is inserted and the session user is set to it. -/
theorem C7_register_unique (db : DB) (form : RegisterForm) :
    ((∃ u ∈ db.users, u.username = pyLower form.username) →
      register none .post form db =
        (db, none, .redirect "register"
          ["Username \x22" ++ pyLower form.username ++ "\x22 is unavailable."])) ∧
    ((∀ u ∈ db.users, u.username ≠ pyLower form.username) →
      register none .post form db =
        ({ db with users := db.users ++
            [⟨pyLower form.username, form.email,
              generate_password_hash form.password⟩] },
          some (pyLower form.username),
          .redirect "workout_log"
            ["Welcome, " ++ pyLower form.username ++
              "! Your account has been created."])) := by
  constructor
  · intro hdup
    obtain ⟨u, hu, heq⟩ := hdup
    have hsome : (db.users.find? (fun v => v.username == pyLower form.username)).isSome :=
      List.find?_isSome.mpr ⟨u, hu, by simp [heq]⟩
    obtain ⟨w, hw⟩ := Option.isSome_iff_exists.mp hsome
    simp [register, hw]
  · intro hnone
    have hn : db.users.find? (fun v => v.username == pyLower form.username) = none := by
      refine List.find?_eq_none.mpr (fun u hu => ?_)
      simp only [beq_iff_eq]
      exact hnone u hu
    simp [register, hn]

/-- Witness for C7 at concrete inputs: "Bob" collides with the stored
lowercase "bob"; "Ann" does not collide and is inserted as "ann". -/
theorem C7_register_unique_witness :
    register none .post ⟨"Bob", "b@x.com", "pw"⟩
        (DB.mk [⟨"bob", "e@x.com", "h"⟩] [] []) =
      ((DB.mk [⟨"bob", "e@x.com", "h"⟩] [] []), none,
        .redirect "register"
          ["Username \x22" ++ pyLower "Bob" ++ "\x22 is unavailable."]) ∧
    register none .post ⟨"Ann", "a@x.com", "pw"⟩ (DB.mk [] [] []) =
      ((DB.mk [⟨pyLower "Ann", "a@x.com", generate_password_hash "pw"⟩] [] []),
        some (pyLower "Ann"),
        .redirect "workout_log"
          ["Welcome, " ++ pyLower "Ann" ++ "! Your account has been created."]) :=
  ⟨(C7_register_unique (DB.mk [⟨"bob", "e@x.com", "h"⟩] [] [])
      ⟨"Bob", "b@x.com", "pw"⟩).1 (by decide),
    (C7_register_unique (DB.mk [] [] []) ⟨"Ann", "a@x.com", "pw"⟩).2 (by decide)⟩

end FitnessApp
